import Mathlib

/-!
Verification development for the Tello teleoperation core.

Shallow embedding of the control-loop logic of the repository:
`controller_input.py` (input normalization), `tello_control.py`
(command channel), `main.py` (RC dispatcher thread, video reconnect
supervision, telemetry aggregation) and `video_stream.py` (frame reads).

Python floats are modelled as exact rationals (`ℚ`), with NaN made
explicit where a claim is about it; Python `int()` truncation toward
zero is modelled explicitly; machine time stamps are rationals passed
as explicit parameters; external I/O results (socket sends, capture
reads, reconnect outcomes) are parameters of the step functions.
-/

/-! ## Input normalizer (`controller_input.py`, `get_normalized_input`) -/

/-- The four logical movement axes of `axis_mapping`. -/
inductive AxisKey
  | move_x
  | move_y
  | move_z
  | rotation
deriving DecidableEq

/-- The configuration fields of `ControllerManager.config` that
`get_normalized_input` reads: deadzone, axis mapping, inversion flags,
the three sensitivity classes, and calibration axis offsets
(`calibration.axis_offsets`, keyed by axis index, defaulting to 0). -/
structure ControllerConfig where
  deadzone : ℚ
  axis_mapping : AxisKey → ℕ
  invert_axis : AxisKey → Bool
  sens_move_xy : ℚ
  sens_move_z : ℚ
  sens_rotation : ℚ
  axis_offsets : ℕ → ℚ

/-- Sensitivity class selection: `move_x`/`move_y` use `move_xy`,
`move_z` uses `move_z`, `rotation` uses `rotation`
(`controller_input.py` lines 421-426). -/
def sensitivityFor (cfg : ControllerConfig) (k : AxisKey) : ℚ :=
  match k with
  | .move_x => cfg.sens_move_xy
  | .move_y => cfg.sens_move_xy
  | .move_z => cfg.sens_move_z
  | .rotation => cfg.sens_rotation

/-- Pre-deadzone processing of one logical axis
(`controller_input.py` lines 404-436): guarded by `len(axes) > 0` and
`axis_index < len(axes)` (out of range yields the initialized 0.0),
subtract the calibration offset, invert if configured, multiply by the
class sensitivity. -/
def processAxis (cfg : ControllerConfig) (axes : List ℚ) (k : AxisKey) : ℚ :=
  if 0 < axes.length ∧ cfg.axis_mapping k < axes.length then
    let v := axes.getD (cfg.axis_mapping k) 0 - cfg.axis_offsets (cfg.axis_mapping k)
    let v2 := if cfg.invert_axis k then -v else v
    v2 * sensitivityFor cfg k
  else 0

/-- The deadzone remapping applied to each movement value
(`controller_input.py` lines 445-454): values with `|v| < deadzone`
become 0, positive values map to `(v - dz)/(1 - dz)`, the rest to
`(v + dz)/(1 - dz)`. -/
def applyDeadzone (dz v : ℚ) : ℚ :=
  if |v| < dz then 0
  else if 0 < v then (v - dz) / (1 - dz)
  else (v + dz) / (1 - dz)

/-- One movement field of the dictionary returned by
`get_normalized_input`: pre-deadzone processing followed by the
deadzone remapping. -/
def movementField (cfg : ControllerConfig) (axes : List ℚ) (k : AxisKey) : ℚ :=
  applyDeadzone cfg.deadzone (processAxis cfg axes k)

/-- `get_default_config` of `controller_input.py`: deadzone 0.15,
mapping x→0 y→1 z→3 rotation→2, `move_y`/`move_z` inverted,
sensitivities 1.0 / 0.7 / 0.8, and no calibration offsets. -/
def defaultConfig : ControllerConfig where
  deadzone := 3/20
  axis_mapping := fun k =>
    match k with
    | .move_x => 0
    | .move_y => 1
    | .move_z => 3
    | .rotation => 2
  invert_axis := fun k =>
    match k with
    | .move_y => true
    | .move_z => true
    | _ => false
  sens_move_xy := 1
  sens_move_z := 7/10
  sens_rotation := 4/5
  axis_offsets := fun _ => 0

/-- A raw four-axis sample that deflects exactly one logical axis `k`
(at its default-config index) to the raw value `v`. -/
def singleAxes (k : AxisKey) (v : ℚ) : List ℚ :=
  match k with
  | .move_x => [v, 0, 0, 0]
  | .move_y => [0, v, 0, 0]
  | .rotation => [0, 0, v, 0]
  | .move_z => [0, 0, 0, v]

/-- Normalized output of logical axis `k` under the default
configuration when axis `k` alone reads raw value `v`. -/
def axisOutput (k : AxisKey) (v : ℚ) : ℚ :=
  movementField defaultConfig (singleAxes k v) k

/-- The deadzone remapping as the specification words it:
`0` inside the deadzone, else `sign(v) * (|v| - deadzone) / (1 - deadzone)`. -/
def deadzoneRemapSpec (dz v : ℚ) : ℚ :=
  if |v| < dz then 0
  else (if 0 < v then 1 else if v < 0 then -1 else 0) * ((|v| - dz) / (1 - dz))

/-- Signed pre-deadzone coefficient of each axis under the default
configuration (inversion sign times sensitivity). -/
def axisCoef (k : AxisKey) : ℚ :=
  match k with
  | .move_x => 1
  | .move_y => -1
  | .move_z => -(7/10)
  | .rotation => 4/5

/-! ## Command channel (`tello_control.py`, `send_rc_control`) -/

/-- A Python float argument as this embedding sees it: either NaN or an
exact rational value. (Infinities behave like NaN for `int()` and are
not needed by the claims.) -/
inductive PyFloat
  | nan
  | val (q : ℚ)
deriving DecidableEq

/-- Python `int()` truncation toward zero on a finite float value. -/
def pyTruncQ (q : ℚ) : ℤ :=
  if 0 ≤ q then ⌊q⌋ else ⌈q⌉

/-- Python `int(x)` on a float: truncates finite values, raises
`ValueError` on NaN. -/
def pyIntOfFloat : PyFloat → Except String ℤ
  | .nan => .error "cannot convert float NaN to integer"
  | .val q => .ok (pyTruncQ q)

/-- The clamp of `send_rc_control` (`tello_control.py` lines 180-183):
`max(-100, min(100, int(x)))`. -/
def clamp100 (z : ℤ) : ℤ := max (-100) (min 100 z)

/-- The `rc` datagram text built at `tello_control.py` line 187. -/
def rcCommandString (a b c d : ℤ) : String :=
  "rc " ++ toString a ++ " " ++ toString b ++ " "
    ++ toString c ++ " " ++ toString d

/-- `TelloControl.send_rc_control` (`tello_control.py` lines 166-190)
up to the command handed to `send_command`: each argument is converted
with `int()` and clamped into [-100,100]; the result is the transmitted
`rc` command string. An exception from `int()` (NaN input) propagates
to the caller as an error — the four clamping lines are outside any
`try` block. -/
def send_rc_control (lr fb ud yaw : PyFloat) : Except String String :=
  match pyIntOfFloat lr with
  | .error e => .error e
  | .ok a =>
    match pyIntOfFloat fb with
    | .error e => .error e
    | .ok b =>
      match pyIntOfFloat ud with
      | .error e => .error e
      | .ok c =>
        match pyIntOfFloat yaw with
        | .error e => .error e
        | .ok d => .ok (rcCommandString (clamp100 a) (clamp100 b)
            (clamp100 c) (clamp100 d))

/-! ## RC dispatcher thread (`main.py`, `rc_control_thread`) -/

/-- One normalized controller movement sample, the `movement` part of
`drone_state["last_controller_input"]`. -/
structure MoveInput where
  x : ℚ
  y : ℚ
  z : ℚ
  rotation : ℚ
deriving DecidableEq

/-- The snap of `main.py` lines 442-449: scaled values with magnitude
below 5 are treated as noise and zeroed. -/
def snapSmall (z : ℤ) : ℤ := if |z| < 5 then 0 else z

/-- Scaling of a movement sample to RC values (`main.py` lines
436-449): multiply by 100, truncate with `int()`, zero the sub-noise
floor. -/
def scaleToRc (m : MoveInput) : ℤ × ℤ × ℤ × ℤ :=
  (snapSmall (pyTruncQ (m.x * 100)), snapSmall (pyTruncQ (m.y * 100)),
   snapSmall (pyTruncQ (m.z * 100)), snapSmall (pyTruncQ (m.rotation * 100)))

/-- Mutable locals of `rc_control_thread` that survive between loop
iterations. -/
structure RcState where
  last_rc_time : ℚ
  last_heartbeat_time : ℚ
  last_rc_values : ℤ × ℤ × ℤ × ℤ
  idle_count : ℕ
  retry_count : ℕ
deriving DecidableEq

/-- Heartbeat branch of the dispatcher iteration (`main.py` lines
477-480): if more than 3 s passed since the last heartbeat, send one
all-zero `rc` command. -/
def rcHeartbeatStep (now : ℚ) (s : RcState) : List (ℤ × ℤ × ℤ × ℤ) × RcState :=
  if now - s.last_heartbeat_time > 3 then
    ([(0, 0, 0, 0)], { s with last_heartbeat_time := now })
  else ([], s)

/-- One iteration of the `rc_control_thread` loop body (`main.py`
lines 418-489), excluding the trailing 10 ms sleep. `is_flying`,
`rc_enabled` and `ci` are the values read from the shared state;
`now` is `time.time()`; `sendOk` is the result of the first
`send_rc_control` call of the iteration (the result of a retry send is
ignored by the source). The first output component lists the RC value
tuples handed to `send_rc_control`, in order. The heartbeat branch is
an `elif` of the input-processing branch, and both live inside the
`if is_flying and rc_enabled` block. -/
def rcControlIteration (is_flying rc_enabled : Bool) (ci : Option MoveInput)
    (now : ℚ) (sendOk : Bool) (s : RcState) :
    List (ℤ × ℤ × ℤ × ℤ) × RcState :=
  if is_flying = true ∧ rc_enabled = true then
    match ci with
    | some m =>
      if now - s.last_rc_time > 1/20 then
        let cur := scaleToRc m
        if cur ≠ s.last_rc_values ∨ 10 ≤ s.idle_count then
          if sendOk = false ∧ s.retry_count < 3 then
            ([cur, cur],
              { s with retry_count := s.retry_count + 1, last_rc_time := now,
                       last_rc_values := cur, idle_count := 0 })
          else
            ([cur],
              { s with retry_count := 0, last_rc_time := now,
                       last_rc_values := cur, idle_count := 0 })
        else ([], { s with idle_count := s.idle_count + 1 })
      else rcHeartbeatStep now s
    | none => rcHeartbeatStep now s
  else ([], s)

/-- The `finally` block of `rc_control_thread` (`main.py` lines
492-501): three zero-velocity sends through `send_rc_control`, each
followed by a 0.1 s sleep (the second component). -/
def rcThreadShutdownSends : List (Except String String × ℚ) :=
  (List.range 3).map (fun _ =>
    (send_rc_control (PyFloat.val 0) (PyFloat.val 0)
      (PyFloat.val 0) (PyFloat.val 0), 1/10))

/-! ## Connection status and video reconnect supervision -/

/-- The connection-status strings used by `video_stream.py` and the
reconnect logic of `main.py`. -/
inductive ConnStatus
  | notConnected
  | connected
  | disconnected
  | readError
  | frameError
deriving DecidableEq

/-- Membership test of `main.py` line 172:
`video.connection_status in ["Disconnected", "Read Error", "Frame Error"]`. -/
def degradedStatus (c : ConnStatus) : Bool :=
  match c with
  | .disconnected => true
  | .readError => true
  | .frameError => true
  | _ => false

/-- The supervisor variables of `main`'s reconnect logic. -/
structure SupState where
  video_status : ConnStatus
  video_reconnect_attempts : ℕ
  last_video_reconnect : ℚ
deriving DecidableEq

/-- Resource actions taken by the reconnect block, in order. -/
inductive SupAction
  | release
  | connectAttempt
deriving DecidableEq

/-- The reconnect block of the main loop (`main.py` lines 170-196),
run when a frame read failed. `connectOk` is the outcome of
`video.connect()`; on success `connect` leaves `connection_status`
at "Connected" (`video_stream.py` line 96), on failure at
"Not Connected" (line 109). The first output component lists the
resource actions taken. -/
def videoReconnectStep (s : SupState) (now : ℚ) (connectOk : Bool) :
    List SupAction × SupState :=
  if degradedStatus s.video_status = true ∧ now - s.last_video_reconnect > 10
      ∧ s.video_reconnect_attempts < 5 then
    if connectOk = true then
      ([SupAction.release, SupAction.connectAttempt],
        { video_status := ConnStatus.connected, video_reconnect_attempts := 0,
          last_video_reconnect := now })
    else
      ([SupAction.release, SupAction.connectAttempt],
        { video_status := ConnStatus.notConnected,
          video_reconnect_attempts := s.video_reconnect_attempts + 1,
          last_video_reconnect := now })
  else ([], s)

/-- Iterated reconnect supervision over a trace of failed-read events,
each event carrying its timestamp and the connect outcome. -/
def videoReconnectRun (s : SupState) (events : List (ℚ × Bool)) : SupState :=
  events.foldl (fun st e => (videoReconnectStep st e.1 e.2).2) s

/-! ## Telemetry aggregation (`tello_control.py` queries and the
`main.py` periodic update) -/

/-- Python `str.isdigit` restricted to ASCII: nonempty and all digits. -/
def pyIsDigit (s : String) : Bool :=
  decide (s.length ≠ 0) && s.toList.all (fun c => c.isDigit)

/-- Decimal value of an all-digit string, as `int()` computes it. -/
def parseIntDigits (s : String) : ℕ :=
  s.toList.foldl (fun a c => a * 10 + (c.toNat - 48)) 0

/-- `TelloControl.get_battery` (`tello_control.py` lines 210-223) as a
function of the `battery?` response (`none` models a timeout or send
failure, where `send_command` returns `None`/`False`): an all-digit
response parses to its value, anything else yields -1. Total — the
source catches `ValueError`/`TypeError` and no exception escapes. -/
def get_battery (response : Option String) : ℤ :=
  match response with
  | some s => if s.length ≠ 0 ∧ pyIsDigit s = true then (parseIntDigits s : ℤ)
      else -1
  | none => -1

/-- Python `str.partition(sep)` reduced to the (head, tail) pair:
split at the first occurrence of `sep`; absent separator leaves the
tail empty. -/
def pyPartition (s sep : String) : String × String :=
  match s.splitOn sep with
  | [] => (s, "")
  | k :: rest =>
    (k, if rest = [] then "" else String.intercalate sep rest)

/-- Insert-or-overwrite into an association list, modelling Python
dict assignment `data[key] = value`. -/
def upsert (data : List (String × String)) (k v : String) :
    List (String × String) :=
  match data with
  | [] => [(k, v)]
  | (k₀, v₀) :: rest =>
    if k₀ = k then (k, v) :: rest else (k₀, v₀) :: upsert rest k v

/-- `TelloControl.get_telemetry_data` (`tello_control.py` lines
225-252) as a function of the `state?` response: `None`/empty response
gives `none`, otherwise the response splits on `;` into `key:value`
pairs (empty pairs skipped, the split at the first `:`). Values are
kept as their raw text — the source additionally converts numeric
strings to floats, a value-level conversion that does not change which
keys are stored. -/
def get_telemetry_data (response : Option String) :
    Option (List (String × String)) :=
  match response with
  | none => none
  | some s =>
    if s = "" then none
    else
      some ((s.splitOn ";").foldl
        (fun data pair =>
          if pair = "" then data
          else
            let kv := pyPartition pair ":"
            upsert data kv.1 kv.2) [])

/-- The fields of the shared `drone_state` dict touched (or claimed to
be untouched) by the periodic telemetry update: the battery value, the
telemetry key/value fields, and the error bookkeeping. -/
structure DroneSharedState where
  battery : ℤ
  telemetry : List (String × String)
  error_count : ℕ
  last_error : String
deriving DecidableEq

/-- The periodic battery/telemetry update of the main loop (`main.py`
lines 201-222): the battery value is stored only when the query result
is positive; telemetry key/value pairs are merged only when
`get_telemetry_data` produced a nonempty dict; no branch touches
`error_count` or `last_error` (the surrounding `except` that increments
them is not reachable from these total query functions). -/
def telemetryTick (st : DroneSharedState) (batteryResp stateResp : Option String) :
    DroneSharedState :=
  let b := get_battery batteryResp
  let st1 := if b > 0 then { st with battery := b } else st
  match get_telemetry_data stateResp with
  | some data =>
    if data ≠ [] then
      { st1 with telemetry := data.foldl (fun t kv => upsert t kv.1 kv.2) st1.telemetry }
    else st1
  | none => st1

/-! ## Video stream (`video_stream.py`, `read_frame`) -/

/-- A decoded frame: an identity tag and its `size`. -/
structure Frame where
  data : ℕ
  size : ℕ
deriving DecidableEq

/-- The instance fields of `VideoStream` that `read_frame` reads or
writes. `capOpen` stands for `self.cap is not None and self.cap.isOpened()`. -/
structure VideoState where
  capOpen : Bool
  frame_count : ℕ
  total_frames : ℕ
  dropped_frames : ℕ
  decode_errors : ℕ
  connection_status : ConnStatus
  last_successful_frame : Option Frame
  last_frame_time : ℚ
  prev_decode_check_time : ℚ
deriving DecidableEq

/-- The decode-error-rate check of `read_frame` (`video_stream.py`
lines 128-138): every 5 s, if more than 50 decode errors accumulated,
release the capture and reconnect with `connect(retry_limit=2)`
(outcome `reconnectOk`; on success `connect` reopens the capture, sets
the status to Connected and zeroes `decode_errors`; on failure the
capture stays closed and the status becomes Not Connected), then zero
`decode_errors` and stamp the check time. -/
def decodeErrorCheck (s : VideoState) (now : ℚ) (reconnectOk : Bool) : VideoState :=
  if now - s.prev_decode_check_time > 5 then
    if s.decode_errors > 50 then
      if reconnectOk = true then
        { s with capOpen := true, connection_status := ConnStatus.connected,
                 decode_errors := 0, prev_decode_check_time := now }
      else
        { s with capOpen := false, connection_status := ConnStatus.notConnected,
                 decode_errors := 0, prev_decode_check_time := now }
    else { s with prev_decode_check_time := now }
  else s

/-- The result of `self.cap.read()`: a normal return of the
`(ret, frame)` pair, or an exception during the read. -/
inductive CapRead
  | ok (ret : Bool) (frame : Option Frame)
  | exc
deriving DecidableEq

/-- The failure tail of `read_frame` (`video_stream.py` lines
160-170): bump `dropped_frames` and `decode_errors`, set the status to
Frame Error, and return the last successful frame with `True` when one
exists, else `(False, None)`. -/
def readFrameFailure (m : VideoState) : (Bool × Option Frame) × VideoState :=
  let m2 := { m with dropped_frames := m.dropped_frames + 1,
                     decode_errors := m.decode_errors + 1,
                     connection_status := ConnStatus.frameError }
  match m.last_successful_frame with
  | some g => ((true, some g), m2)
  | none => ((false, none), m2)

/-- `VideoStream.read_frame` (`video_stream.py` lines 112-177). `now`
is the entry timestamp, `now2` the timestamp taken right after the
capture read, `reconnectOk` the outcome of the reconnect the
decode-error check may attempt, and `r` the capture read result. The
first output component is the `(success, frame)` pair returned to the
caller. -/
def read_frame (s : VideoState) (now now2 : ℚ) (reconnectOk : Bool)
    (r : CapRead) : (Bool × Option Frame) × VideoState :=
  if s.capOpen = false then
    ((false, none), { s with connection_status := ConnStatus.disconnected })
  else
    let frame_interval := now - s.last_frame_time
    let m := decodeErrorCheck s now reconnectOk
    if m.capOpen = false then ((false, none), m)
    else
      match r with
      | .exc =>
        ((false, none),
          { m with dropped_frames := m.dropped_frames + 1,
                   decode_errors := m.decode_errors + 1,
                   connection_status := ConnStatus.readError })
      | .ok ret fo =>
        let m2 := { m with last_frame_time := now2 }
        match fo with
        | some f =>
          if ret = true ∧ 0 < f.size then
            ((true, some f),
              { m2 with frame_count := m2.frame_count + 1,
                        total_frames := m2.total_frames + 1,
                        connection_status := ConnStatus.connected,
                        last_successful_frame := some f,
                        dropped_frames :=
                          if frame_interval > 1/10 then m2.dropped_frames + 1
                          else m2.dropped_frames })
          else readFrameFailure m2
        | none => readFrameFailure m2

/-! ### Deadzone lemmas -/

lemma applyDeadzone_nonneg (dz v : ℚ) (h0 : 0 ≤ dz) (h1 : dz < 1) (hv : 0 ≤ v) :
    0 ≤ applyDeadzone dz v := by
  by_cases hlt : |v| < dz
  · simp [applyDeadzone, hlt]
  · by_cases hpos : 0 < v
    · rw [applyDeadzone, if_neg hlt, if_pos hpos]
      have hdzv : dz ≤ v := by
        have := not_lt.mp hlt
        rwa [abs_of_nonneg hv] at this
      apply div_nonneg <;> linarith
    · have hv0 : v = 0 := le_antisymm (not_lt.mp hpos) hv
      subst hv0
      have hdz0 : dz = 0 := by
        have := not_lt.mp hlt
        simp only [abs_zero] at this
        linarith
      subst hdz0
      norm_num [applyDeadzone]

lemma applyDeadzone_neg_arg (dz v : ℚ) (h0 : 0 ≤ dz) :
    applyDeadzone dz (-v) = -applyDeadzone dz v := by
  by_cases hlt : |v| < dz
  · have hlt2 : |(-v)| < dz := by rwa [abs_neg]
    simp [applyDeadzone, hlt, hlt2]
  · have hlt2 : ¬ |(-v)| < dz := by rwa [abs_neg]
    rcases lt_trichotomy v 0 with hneg | hzero | hpos
    · rw [applyDeadzone, applyDeadzone, if_neg hlt, if_neg hlt2,
        if_pos (by linarith : (0:ℚ) < -v), if_neg (not_lt.mpr (le_of_lt hneg))]
      have harg : -v - dz = -(v + dz) := by ring
      rw [harg, neg_div]
    · subst hzero
      have hdz0 : dz = 0 := by
        have := not_lt.mp hlt
        simp only [abs_zero] at this
        linarith
      subst hdz0
      norm_num [applyDeadzone]
    · rw [applyDeadzone, applyDeadzone, if_neg hlt, if_neg hlt2,
        if_pos hpos, if_neg (by linarith : ¬ (0:ℚ) < -v)]
      have harg : -v + dz = -(v - dz) := by ring
      rw [harg, neg_div]

lemma applyDeadzone_abs (dz v : ℚ) (h0 : 0 ≤ dz) (h1 : dz < 1) :
    |applyDeadzone dz v| = applyDeadzone dz |v| := by
  rcases le_or_lt 0 v with hv | hv
  · rw [abs_of_nonneg hv, abs_of_nonneg (applyDeadzone_nonneg dz v h0 h1 hv)]
  · have hnn : 0 ≤ -v := by linarith
    have h2 : applyDeadzone dz (-v) = -applyDeadzone dz v :=
      applyDeadzone_neg_arg dz v h0
    have h3 : 0 ≤ applyDeadzone dz (-v) := applyDeadzone_nonneg dz (-v) h0 h1 hnn
    rw [abs_of_neg hv, ← abs_of_nonneg h3, h2, abs_neg]

lemma applyDeadzone_mono (dz a b : ℚ) (h0 : 0 ≤ dz) (h1 : dz < 1)
    (ha : 0 ≤ a) (hab : a ≤ b) :
    applyDeadzone dz a ≤ applyDeadzone dz b := by
  have hb : 0 ≤ b := le_trans ha hab
  by_cases hlta : |a| < dz
  · have hz : applyDeadzone dz a = 0 := by rw [applyDeadzone, if_pos hlta]
    rw [hz]
    exact applyDeadzone_nonneg dz b h0 h1 hb
  · have hdza : dz ≤ a := by
      have := not_lt.mp hlta
      rwa [abs_of_nonneg ha] at this
    have hltb : ¬ |b| < dz := by
      rw [abs_of_nonneg hb]
      exact not_lt.mpr (le_trans hdza hab)
    have hden : (0:ℚ) < 1 - dz := by linarith
    by_cases hpa : 0 < a
    · have hpb : 0 < b := lt_of_lt_of_le hpa hab
      rw [applyDeadzone, applyDeadzone, if_neg hlta, if_neg hltb,
        if_pos hpa, if_pos hpb]
      gcongr
    · have ha0 : a = 0 := le_antisymm (not_lt.mp hpa) ha
      subst ha0
      have hdz0 : dz = 0 := le_antisymm hdza h0
      subst hdz0
      have h00 : applyDeadzone 0 0 = 0 := by norm_num [applyDeadzone]
      rw [h00]
      exact applyDeadzone_nonneg 0 b le_rfl h1 hb

lemma applyDeadzone_one (dz : ℚ) (h1 : dz < 1) : applyDeadzone dz 1 = 1 := by
  rw [applyDeadzone, if_neg (by rw [abs_one]; exact not_lt.mpr (le_of_lt h1)),
    if_pos one_pos]
  exact div_self (by linarith)

lemma applyDeadzone_le_one (dz a : ℚ) (h0 : 0 ≤ dz) (h1 : dz < 1)
    (ha : 0 ≤ a) (ha1 : a ≤ 1) : applyDeadzone dz a ≤ 1 := by
  calc applyDeadzone dz a ≤ applyDeadzone dz 1 :=
        applyDeadzone_mono dz a 1 h0 h1 ha ha1
    _ = 1 := applyDeadzone_one dz h1

lemma axisOutput_eq (k : AxisKey) (v : ℚ) :
    axisOutput k v = applyDeadzone (3/20) (axisCoef k * v) := by
  cases k <;>
    · simp only [axisOutput, movementField, processAxis, singleAxes,
        defaultConfig, sensitivityFor, axisCoef, List.getD, List.length,
        List.get?]
      norm_num
      all_goals (congr 1; ring)

lemma axisOutput_abs (k : AxisKey) (v : ℚ) :
    |axisOutput k v| = applyDeadzone (3/20) (|axisCoef k| * |v|) := by
  rw [axisOutput_eq, applyDeadzone_abs _ _ (by norm_num) (by norm_num), abs_mul]

lemma axisCoef_abs_le_one (k : AxisKey) : |axisCoef k| ≤ 1 := by
  cases k <;> simp [axisCoef, abs_le] <;> norm_num

/-! ## Claim theorems: input normalization and RC clamping -/

/-- C1 (counterexample): a NaN input to `send_rc_control` is not
treated as 0 — `int(NaN)` raises `ValueError` before the clamp, the
error propagates to the caller, and no `rc` command is built, in
particular not the all-zero one the claim's post-clamp policy would
transmit. -/
theorem send_rc_nan_not_zeroed :
    send_rc_control PyFloat.nan (PyFloat.val 0) (PyFloat.val 0) (PyFloat.val 0)
      = Except.error "cannot convert float NaN to integer" ∧
    send_rc_control PyFloat.nan (PyFloat.val 0) (PyFloat.val 0) (PyFloat.val 0)
      ≠ Except.ok (rcCommandString 0 0 0 0) := by
  refine ⟨rfl, ?_⟩
  intro h
  simp [send_rc_control, pyIntOfFloat] at h

/-- C1 (amended): for every 4-tuple of finite (non-NaN) inputs,
including values outside [-100,100], `send_rc_control` truncates each
field with `int()` and clamps it into [-100,100], and the clamped
command string is the one handed to `send_command` for transmission;
a NaN input instead raises `ValueError`, which propagates to the
caller with nothing transmitted. -/
theorem send_rc_control_clamps (a b c d : ℚ) :
    send_rc_control (PyFloat.val a) (PyFloat.val b) (PyFloat.val c) (PyFloat.val d)
      = Except.ok (rcCommandString (clamp100 (pyTruncQ a)) (clamp100 (pyTruncQ b))
          (clamp100 (pyTruncQ c)) (clamp100 (pyTruncQ d))) ∧
    (∀ z : ℤ, -100 ≤ clamp100 z ∧ clamp100 z ≤ 100) ∧
    (∀ f g k : PyFloat, send_rc_control PyFloat.nan f g k
        = Except.error "cannot convert float NaN to integer") := by
  refine ⟨rfl, ?_, ?_⟩
  · intro z
    exact ⟨le_max_left _ _, max_le (by norm_num) (min_le_left _ _)⟩
  · intro f g k
    rfl

/-- C2: the deadzone step of `get_normalized_input` computes exactly
the specification's remapping `0` for `|v| < deadzone` and
`sign(v) * (|v| - deadzone) / (1 - deadzone)` otherwise (for any
nonnegative deadzone); and with deadzone 0.15, raw value 0.5 on the
uninverted unit-sensitivity axis `move_x`, the normalized output is
within 0.001 of 0.412. -/
theorem deadzone_step_matches_spec (dz v : ℚ) (hdz : 0 ≤ dz) :
    applyDeadzone dz v = deadzoneRemapSpec dz v ∧
    |movementField defaultConfig [1/2, 0, 0, 0] AxisKey.move_x - 412/1000|
      < 1/1000 := by
  constructor
  · by_cases hlt : |v| < dz
    · simp [applyDeadzone, deadzoneRemapSpec, hlt]
    · rcases lt_trichotomy 0 v with hpos | hzero | hneg
      · rw [applyDeadzone, deadzoneRemapSpec, if_neg hlt, if_neg hlt,
          if_pos hpos, if_pos hpos, abs_of_pos hpos, one_mul]
      · have hv0 : v = 0 := hzero.symm
        subst hv0
        have hdz0 : dz = 0 := by
          have := not_lt.mp hlt
          simp only [abs_zero] at this
          linarith
        subst hdz0
        norm_num [applyDeadzone, deadzoneRemapSpec]
      · rw [applyDeadzone, deadzoneRemapSpec, if_neg hlt, if_neg hlt,
          if_neg (not_lt.mpr (le_of_lt hneg)), if_neg (not_lt.mpr (le_of_lt hneg)),
          if_pos hneg, abs_of_neg hneg, neg_one_mul, ← neg_div]
        congr 1
        ring
  · norm_num [movementField, processAxis, defaultConfig, sensitivityFor,
      applyDeadzone, List.getD, abs_of_nonneg]

/-- Witness for C2 at deadzone 0.15 and processed value 0.5. -/
theorem deadzone_step_matches_spec_witness :
    (0:ℚ) ≤ 3/20 ∧
    (applyDeadzone (3/20) (1/2) = deadzoneRemapSpec (3/20) (1/2) ∧
     |movementField defaultConfig [1/2, 0, 0, 0] AxisKey.move_x - 412/1000|
       < 1/1000) :=
  ⟨by norm_num, deadzone_step_matches_spec (3/20) (1/2) (by norm_num)⟩

/-- C3 (counterexample): under the default configuration the raw value
1 on the `rotation` axis satisfies deadzone ≤ |v| ≤ 1, yet the output
magnitude is 13/17 ≈ 0.765, not exactly 1 — boundary exactness fails
for the non-unit-sensitivity axes. -/
theorem boundary_exactness_fails_for_rotation :
    (3:ℚ)/20 ≤ |(1:ℚ)| ∧ |(1:ℚ)| ≤ 1 ∧
    axisOutput AxisKey.rotation 1 = 13/17 ∧
    |axisOutput AxisKey.rotation 1| ≠ 1 := by
  have hval : axisOutput AxisKey.rotation 1 = 13/17 := by
    rw [axisOutput_eq]
    norm_num [axisCoef, applyDeadzone, abs_of_nonneg]
  refine ⟨by norm_num, by norm_num, hval, ?_⟩
  rw [hval]
  norm_num [abs_of_nonneg]

/-- C3 (amended): under the default configuration, for every logical
axis the output magnitude lies in [0,1] for raw magnitudes up to 1 and
is monotone non-decreasing in the raw magnitude; at raw magnitude 1 the
output magnitude is exactly 1 for the unit-sensitivity axes `move_x`
and `move_y`, while for `move_z` (sensitivity 0.7) it is 11/17 and for
`rotation` (sensitivity 0.8) it is 13/17. -/
theorem axis_output_bounded_monotone (k : AxisKey) (a b : ℚ)
    (ha : 3/20 ≤ |a|) (hab : |a| ≤ |b|) (hb1 : |b| ≤ 1) :
    (0 ≤ |axisOutput k a| ∧ |axisOutput k a| ≤ 1 ∧
      |axisOutput k a| ≤ |axisOutput k b|) ∧
    ((k = AxisKey.move_x ∨ k = AxisKey.move_y) → |axisOutput k 1| = 1) ∧
    |axisOutput AxisKey.move_z 1| = 11/17 ∧
    |axisOutput AxisKey.rotation 1| = 13/17 := by
  have h0 : (0:ℚ) ≤ 3/20 := by norm_num
  have h1 : (3:ℚ)/20 < 1 := by norm_num
  have ha1 : |a| ≤ 1 := le_trans hab hb1
  refine ⟨⟨abs_nonneg _, ?_, ?_⟩, ?_,
    by rw [axisOutput_abs]; norm_num [axisCoef, applyDeadzone, abs_of_nonneg],
    by rw [axisOutput_abs]; norm_num [axisCoef, applyDeadzone, abs_of_nonneg]⟩
  · rw [axisOutput_abs]
    apply applyDeadzone_le_one _ _ h0 h1
      (mul_nonneg (abs_nonneg _) (abs_nonneg _))
    calc |axisCoef k| * |a| ≤ 1 * 1 :=
          mul_le_mul (axisCoef_abs_le_one k) ha1 (abs_nonneg _) (by norm_num)
      _ = 1 := by norm_num
  · rw [axisOutput_abs, axisOutput_abs]
    exact applyDeadzone_mono _ _ _ h0 h1
      (mul_nonneg (abs_nonneg _) (abs_nonneg _))
      (mul_le_mul_of_nonneg_left hab (abs_nonneg _))
  · rintro (rfl | rfl) <;>
      (rw [axisOutput_abs]; norm_num [axisCoef, applyDeadzone, abs_of_nonneg])

/-- Witness for C3 (amended) at axis `move_x`, raw values 0.5 and 1. -/
theorem axis_output_bounded_monotone_witness :
    (0 ≤ |axisOutput AxisKey.move_x (1/2)| ∧
      |axisOutput AxisKey.move_x (1/2)| ≤ 1 ∧
      |axisOutput AxisKey.move_x (1/2)| ≤ |axisOutput AxisKey.move_x 1|) ∧
    ((AxisKey.move_x = AxisKey.move_x ∨ AxisKey.move_x = AxisKey.move_y) →
      |axisOutput AxisKey.move_x 1| = 1) ∧
    |axisOutput AxisKey.move_z 1| = 11/17 ∧
    |axisOutput AxisKey.rotation 1| = 13/17 :=
  axis_output_bounded_monotone AxisKey.move_x (1/2) 1
    (by norm_num [abs_of_nonneg]) (by norm_num [abs_of_nonneg])
    (by norm_num [abs_of_nonneg])

/-- C4 (counterexample): with a calibration offset of -1 on axis 0 and
otherwise default configuration, the raw in-range value 1 on `move_x`
produces a movement field of 37/17 ≈ 2.18 — outside [-1,1]; the
normalizer applies no clamping after the deadzone remap. -/
theorem intent_can_exceed_bounds_with_offset :
    movementField
      { defaultConfig with axis_offsets := fun i => if i = 0 then -1 else 0 }
      [1, 0, 0, 0] AxisKey.move_x = 37/17 ∧
    ¬ movementField
      { defaultConfig with axis_offsets := fun i => if i = 0 then -1 else 0 }
      [1, 0, 0, 0] AxisKey.move_x ≤ 1 := by
  have hval : movementField
      { defaultConfig with axis_offsets := fun i => if i = 0 then -1 else 0 }
      [1, 0, 0, 0] AxisKey.move_x = 37/17 := by
    norm_num [movementField, processAxis, defaultConfig, sensitivityFor,
      applyDeadzone, List.getD]
  refine ⟨hval, ?_⟩
  rw [hval]
  norm_num

/-- C4 (amended): for every configuration whose deadzone lies in
[0,1) and every raw input, each movement field of the returned Intent
lies in [-1,1] provided the processed value of that axis (after
offset subtraction, inversion and sensitivity multiplication) has
magnitude at most 1; calibration offsets or sensitivities that push
the processed value beyond magnitude 1 push the output beyond the
interval, since no clamp follows the deadzone remap. -/
theorem intent_bounded_of_processed_bounded (cfg : ControllerConfig)
    (axes : List ℚ) (k : AxisKey)
    (h0 : 0 ≤ cfg.deadzone) (h1 : cfg.deadzone < 1)
    (hp : |processAxis cfg axes k| ≤ 1) :
    -1 ≤ movementField cfg axes k ∧ movementField cfg axes k ≤ 1 := by
  have habs : |movementField cfg axes k| ≤ 1 := by
    rw [movementField, applyDeadzone_abs _ _ h0 h1]
    exact applyDeadzone_le_one _ _ h0 h1 (abs_nonneg _) hp
  exact abs_le.mp habs

/-- Witness for C4 (amended) at the default configuration and a full
deflection of `move_x`. -/
theorem intent_bounded_of_processed_bounded_witness :
    -1 ≤ movementField defaultConfig [1, 0, 0, 0] AxisKey.move_x ∧
    movementField defaultConfig [1, 0, 0, 0] AxisKey.move_x ≤ 1 :=
  intent_bounded_of_processed_bounded defaultConfig [1, 0, 0, 0]
    AxisKey.move_x (by norm_num [defaultConfig]) (by norm_num [defaultConfig])
    (by norm_num [processAxis, defaultConfig, sensitivityFor, List.getD])

/-! ## Claim theorems: dispatcher loop, supervision, telemetry, video -/

/-- C5 (counterexample): in a dispatcher iteration where the drone is
not flying, more than 3 s past the last heartbeat, the loop body sends
nothing at all — the heartbeat check is nested inside the
`is_flying and rc_enabled` block, so it is skipped rather than
proceeded to, and no all-zero `rc` command goes out. -/
theorem heartbeat_skipped_when_not_flying :
    (rcControlIteration false true (some ⟨0, 0, 0, 0⟩) 4 true
        ⟨0, 0, (0, 0, 0, 0), 0, 0⟩).1 = [] ∧
    (4 : ℚ) - (⟨0, 0, (0, 0, 0, 0), 0, 0⟩ : RcState).last_heartbeat_time > 3 ∧
    (0, 0, 0, 0) ∉ (rcControlIteration false true (some ⟨0, 0, 0, 0⟩) 4 true
        ⟨0, 0, (0, 0, 0, 0), 0, 0⟩).1 := by
  refine ⟨?_, by norm_num, ?_⟩ <;> simp [rcControlIteration]

/-- C5 (amended): when the drone is not flying or RC control is not
enabled, the dispatcher iteration performs neither RC computation nor
the heartbeat check — the whole body is skipped and the state is
unchanged; while flying with RC enabled, whenever the RC branch is not
taken (no stored controller input, or the 0.05 s send interval has not
elapsed) and more than 3 s have elapsed since the last heartbeat,
exactly one all-zero `rc` command is sent and the heartbeat time is
stamped. -/
theorem rc_iteration_heartbeat_policy (fl en : Bool) (ci : Option MoveInput)
    (now : ℚ) (ok : Bool) (s : RcState) :
    (¬ (fl = true ∧ en = true) →
      rcControlIteration fl en ci now ok s = ([], s)) ∧
    ((fl = true ∧ en = true) →
      (ci = none ∨ ¬ now - s.last_rc_time > 1/20) →
      now - s.last_heartbeat_time > 3 →
      rcControlIteration fl en ci now ok s
        = ([(0, 0, 0, 0)], { s with last_heartbeat_time := now })) := by
  constructor
  · intro h
    simp [rcControlIteration, h]
  · rintro ⟨rfl, rfl⟩ hcond hhb
    rcases hcond with hnone | hlate
    · subst hnone
      simp [rcControlIteration, rcHeartbeatStep, hhb]
    · cases ci with
      | none => simp [rcControlIteration, rcHeartbeatStep, hhb]
      | some m =>
        simp only [rcControlIteration]
        rw [if_pos (⟨trivial, trivial⟩ : (True ∧ True)), if_neg hlate,
          rcHeartbeatStep, if_pos hhb]

/-- Witness for C5 (amended): both branches at concrete states. -/
theorem rc_iteration_heartbeat_policy_witness :
    rcControlIteration false true none 4 true ⟨0, 0, (0, 0, 0, 0), 0, 0⟩
      = ([], ⟨0, 0, (0, 0, 0, 0), 0, 0⟩) ∧
    rcControlIteration true true none 4 true ⟨0, 0, (0, 0, 0, 0), 0, 0⟩
      = ([(0, 0, 0, 0)],
         { (⟨0, 0, (0, 0, 0, 0), 0, 0⟩ : RcState) with last_heartbeat_time := 4 }) :=
  ⟨(rc_iteration_heartbeat_policy false true none 4 true
      ⟨0, 0, (0, 0, 0, 0), 0, 0⟩).1 (by simp),
   (rc_iteration_heartbeat_policy true true none 4 true
      ⟨0, 0, (0, 0, 0, 0), 0, 0⟩).2 ⟨rfl, rfl⟩ (Or.inl rfl) (by norm_num)⟩

/-- C6: while flying with RC enabled and the send interval elapsed, a
computed RC tuple equal to the previously sent one is not transmitted
while the idle counter is below the cap of 10 (the counter just
increments); once the counter has reached 10, exactly one
retransmission of the unchanged tuple is forced and the counter resets
to 0. -/
theorem rc_iteration_idle_cap (m : MoveInput) (now : ℚ) (ok : Bool)
    (s : RcState)
    (helapsed : now - s.last_rc_time > 1/20)
    (hsame : scaleToRc m = s.last_rc_values) :
    (s.idle_count < 10 →
      rcControlIteration true true (some m) now ok s
        = ([], { s with idle_count := s.idle_count + 1 })) ∧
    (10 ≤ s.idle_count →
      rcControlIteration true true (some m) now true s
        = ([s.last_rc_values],
           { s with retry_count := 0, last_rc_time := now,
                    last_rc_values := s.last_rc_values, idle_count := 0 })) := by
  constructor
  · intro hidle
    have hcond : ¬ (scaleToRc m ≠ s.last_rc_values ∨ 10 ≤ s.idle_count) := by
      push_neg
      exact ⟨hsame, hidle⟩
    simp only [rcControlIteration]
    rw [if_pos (⟨trivial, trivial⟩ : (True ∧ True)), if_pos helapsed,
      if_neg hcond]
  · intro hcap
    simp only [rcControlIteration]
    rw [if_pos (⟨trivial, trivial⟩ : (True ∧ True)), if_pos helapsed,
      if_pos (Or.inr hcap : (scaleToRc m ≠ s.last_rc_values ∨ 10 ≤ s.idle_count)),
      if_neg (show ¬ (true = false ∧ s.retry_count < 3) by simp), hsame]

/-- Witness for C6 at a zero movement sample: idle counter below the
cap (3 → 4, no send) and at the cap (10 → sends once, resets). -/
theorem rc_iteration_idle_cap_witness :
    rcControlIteration true true (some ⟨0, 0, 0, 0⟩) 1 true
        ⟨0, 0, (0, 0, 0, 0), 3, 0⟩
      = ([], { (⟨0, 0, (0, 0, 0, 0), 3, 0⟩ : RcState) with idle_count := 4 }) ∧
    rcControlIteration true true (some ⟨0, 0, 0, 0⟩) 1 true
        ⟨0, 0, (0, 0, 0, 0), 10, 0⟩
      = ([(0, 0, 0, 0)],
         { (⟨0, 0, (0, 0, 0, 0), 10, 0⟩ : RcState) with
             retry_count := 0, last_rc_time := 1,
             last_rc_values := (0, 0, 0, 0), idle_count := 0 }) :=
  ⟨(rc_iteration_idle_cap ⟨0, 0, 0, 0⟩ 1 true ⟨0, 0, (0, 0, 0, 0), 3, 0⟩
      (by norm_num) (by norm_num [scaleToRc, pyTruncQ, snapSmall])).1
      (by norm_num),
   (rc_iteration_idle_cap ⟨0, 0, 0, 0⟩ 1 true ⟨0, 0, (0, 0, 0, 0), 10, 0⟩
      (by norm_num) (by norm_num [scaleToRc, pyTruncQ, snapSmall])).2
      (by norm_num)⟩

/-- C7: the shutdown block of the dispatcher thread sends the
zero-velocity `rc` command at least 3 times (exactly 3), each send
spaced by a 0.1 s sleep, before the thread exits. -/
theorem rc_thread_shutdown_sends_zero :
    3 ≤ rcThreadShutdownSends.length ∧
    rcThreadShutdownSends
      = [(Except.ok "rc 0 0 0 0", 1/10), (Except.ok "rc 0 0 0 0", 1/10),
         (Except.ok "rc 0 0 0 0", 1/10)] := by
  have hsend : send_rc_control (PyFloat.val 0) (PyFloat.val 0)
      (PyFloat.val 0) (PyFloat.val 0) = Except.ok "rc 0 0 0 0" := by
    have htr : pyTruncQ 0 = 0 := by norm_num [pyTruncQ]
    simp [send_rc_control, pyIntOfFloat, htr]
    rfl
  constructor
  · simp [rcThreadShutdownSends]
  · simp [rcThreadShutdownSends, List.range_succ, hsend]

lemma videoReconnectStep_attempts_le (s : SupState) (now : ℚ) (ok : Bool)
    (h : s.video_reconnect_attempts ≤ 5) :
    (videoReconnectStep s now ok).2.video_reconnect_attempts ≤ 5 := by
  rw [videoReconnectStep]
  split_ifs with h1 h2
  · simp
  · simp only []
    have := h1.2.2
    omega
  · exact h

lemma videoReconnectRun_attempts_le (events : List (ℚ × Bool)) :
    ∀ s : SupState, s.video_reconnect_attempts ≤ 5 →
      (videoReconnectRun s events).video_reconnect_attempts ≤ 5 := by
  induction events with
  | nil => exact fun s h => h
  | cons e es ih =>
    intro s h
    have h2 := videoReconnectStep_attempts_le s e.1 e.2 h
    simpa [videoReconnectRun] using ih _ h2

/-- C8: the main loop attempts a video reconnect only when the video
connection status is degraded (Disconnected / Read Error / Frame
Error), more than the 10 s cooldown has elapsed since the last
attempt, and the attempt counter is below the ceiling of 5; every
attempt releases the existing capture before connecting; the counter
resets to 0 on success and increments on failure; and over any trace
of failed-read events the counter — the number of consecutive failed
attempts since the last success — never exceeds 5. -/
theorem video_reconnect_policy (s : SupState) (now : ℚ) (ok : Bool)
    (events : List (ℚ × Bool)) :
    ((videoReconnectStep s now ok).1 ≠ [] →
      degradedStatus s.video_status = true ∧
      now - s.last_video_reconnect > 10 ∧
      s.video_reconnect_attempts < 5 ∧
      (videoReconnectStep s now ok).1
        = [SupAction.release, SupAction.connectAttempt] ∧
      (ok = true →
        (videoReconnectStep s now ok).2.video_reconnect_attempts = 0) ∧
      (ok = false →
        (videoReconnectStep s now ok).2.video_reconnect_attempts
          = s.video_reconnect_attempts + 1)) ∧
    (s.video_reconnect_attempts ≤ 5 →
      (videoReconnectRun s events).video_reconnect_attempts ≤ 5) := by
  constructor
  · intro hatt
    by_cases hcond : degradedStatus s.video_status = true ∧
        now - s.last_video_reconnect > 10 ∧ s.video_reconnect_attempts < 5
    · obtain ⟨hd, ht, hc⟩ := hcond
      cases ok <;>
        (refine ⟨hd, ht, hc, ?_, ?_, ?_⟩ <;>
          simp [videoReconnectStep, hd, ht, hc])
    · rw [videoReconnectStep, if_neg hcond] at hatt
      exact absurd rfl hatt
  · exact fun h => videoReconnectRun_attempts_le events s h

/-- Witness for C8: a degraded state past the cooldown attempts
(release then connect), and a one-event failing trace keeps the
counter within the ceiling. -/
theorem video_reconnect_policy_witness :
    (videoReconnectStep ⟨ConnStatus.disconnected, 0, 0⟩ 11 false).1
      = [SupAction.release, SupAction.connectAttempt] ∧
    (videoReconnectRun ⟨ConnStatus.disconnected, 0, 0⟩
        [(11, false)]).video_reconnect_attempts ≤ 5 := by
  have h := video_reconnect_policy ⟨ConnStatus.disconnected, 0, 0⟩ 11 false
    [(11, false)]
  have h1 := h.1 (by norm_num [videoReconnectStep, degradedStatus]; simp)
  exact ⟨h1.2.2.2.1, h.2 (by norm_num)⟩

/-- C9: when the battery query fails (timeout or malformed response,
`get_battery` returning -1) the stored battery value is untouched;
when the state query fails the stored telemetry fields are untouched;
no branch of the update increments the error counter or the error
text — telemetry failure is not treated as a LogicError — and when
both queries fail the whole shared state is unchanged. The query
functions are total, so no exception reaches the caller. -/
theorem telemetry_failure_leaves_state (st : DroneSharedState)
    (br sr : Option String) :
    (get_battery br = -1 → (telemetryTick st br sr).battery = st.battery) ∧
    (get_telemetry_data sr = none →
      (telemetryTick st br sr).telemetry = st.telemetry) ∧
    (telemetryTick st br sr).error_count = st.error_count ∧
    (telemetryTick st br sr).last_error = st.last_error ∧
    telemetryTick st none none = st := by
  refine ⟨?_, ?_, ?_, ?_, ?_⟩
  · intro hb
    rcases hsr : get_telemetry_data sr with _ | data
    · simp only [telemetryTick, hb, hsr]
      norm_num
    · simp only [telemetryTick, hb, hsr]
      norm_num
      split_ifs <;> simp
  · intro hsr
    simp only [telemetryTick, hsr]
    split_ifs <;> simp
  · rcases hsr : get_telemetry_data sr with _ | data <;>
      · simp only [telemetryTick, hsr]
        split_ifs <;> simp
  · rcases hsr : get_telemetry_data sr with _ | data <;>
      · simp only [telemetryTick, hsr]
        split_ifs <;> simp
  · simp [telemetryTick, get_battery, get_telemetry_data]

/-- Witness for C9: a populated state survives a double timeout
(both query responses absent) unchanged. -/
theorem telemetry_failure_leaves_state_witness :
    (telemetryTick ⟨77, [("bat", "77")], 2, "x"⟩ none none).battery
      = (⟨77, [("bat", "77")], 2, "x"⟩ : DroneSharedState).battery ∧
    telemetryTick ⟨77, [("bat", "77")], 2, "x"⟩ none none
      = ⟨77, [("bat", "77")], 2, "x"⟩ :=
  have h := telemetry_failure_leaves_state ⟨77, [("bat", "77")], 2, "x"⟩
    none none
  ⟨h.1 rfl, h.2.2.2.2⟩

lemma decodeErrorCheck_last_frame (s : VideoState) (now : ℚ) (rok : Bool) :
    (decodeErrorCheck s now rok).last_successful_frame
      = s.last_successful_frame := by
  rw [decodeErrorCheck]
  split_ifs <;> rfl

lemma readFrameFailure_spec (m : VideoState) :
    (readFrameFailure m).2.connection_status = ConnStatus.frameError ∧
    (readFrameFailure m).2.dropped_frames = m.dropped_frames + 1 ∧
    (readFrameFailure m).2.decode_errors = m.decode_errors + 1 ∧
    (readFrameFailure m).2.last_successful_frame = m.last_successful_frame ∧
    (∀ g, m.last_successful_frame = some g →
      (readFrameFailure m).1 = (true, some g)) ∧
    (m.last_successful_frame = none → (readFrameFailure m).1 = (false, none)) := by
  rcases hls : m.last_successful_frame with _ | g <;>
    simp [readFrameFailure, hls]

/-- C10: when the capture read returns a failure (`ret` false, no
frame, or an empty frame) while the capture is open (also after the
decode-error check), `read_frame` sets the connection status to Frame
Error and increments both the dropped-frame and decode-error counters;
it returns `(True, stored frame)` whenever a previous read succeeded
(the stored last successful frame is returned), and `(False, None)`
exactly when no frame has ever succeeded. -/
theorem read_frame_stale_on_failure (s : VideoState) (now now2 : ℚ)
    (rok ret : Bool) (fo : Option Frame)
    (hcap : s.capOpen = true)
    (hmid : (decodeErrorCheck s now rok).capOpen = true)
    (hfail : ¬ (ret = true ∧ ∃ f, fo = some f ∧ 0 < f.size)) :
    (read_frame s now now2 rok (CapRead.ok ret fo)).2.connection_status
      = ConnStatus.frameError ∧
    (read_frame s now now2 rok (CapRead.ok ret fo)).2.dropped_frames
      = (decodeErrorCheck s now rok).dropped_frames + 1 ∧
    (read_frame s now now2 rok (CapRead.ok ret fo)).2.decode_errors
      = (decodeErrorCheck s now rok).decode_errors + 1 ∧
    (read_frame s now now2 rok (CapRead.ok ret fo)).2.last_successful_frame
      = s.last_successful_frame ∧
    (∀ g, s.last_successful_frame = some g →
      (read_frame s now now2 rok (CapRead.ok ret fo)).1 = (true, some g)) ∧
    (s.last_successful_frame = none →
      (read_frame s now now2 rok (CapRead.ok ret fo)).1 = (false, none)) := by
  have hred : read_frame s now now2 rok (CapRead.ok ret fo)
      = readFrameFailure
          { decodeErrorCheck s now rok with last_frame_time := now2 } := by
    rw [read_frame]
    rw [if_neg (by simp [hcap])]
    simp only []
    rw [if_neg (by simp [hmid])]
    rcases fo with _ | f
    · rfl
    · have hcond : ¬ (ret = true ∧ 0 < f.size) := by
        intro hx
        exact hfail ⟨hx.1, f, rfl, hx.2⟩
      simp only []
      rw [if_neg hcond]
  have hspec := readFrameFailure_spec
    { decodeErrorCheck s now rok with last_frame_time := now2 }
  have hmidframe : ({ decodeErrorCheck s now rok with
      last_frame_time := now2 } : VideoState).last_successful_frame
      = s.last_successful_frame := by
    simp [decodeErrorCheck_last_frame]
  rw [hred]
  refine ⟨hspec.1, hspec.2.1, hspec.2.2.1, ?_, ?_, ?_⟩
  · rw [hspec.2.2.2.1, hmidframe]
  · intro g hg
    exact hspec.2.2.2.2.1 g (by rw [hmidframe, hg])
  · intro hg
    exact hspec.2.2.2.2.2 (by rw [hmidframe, hg])

/-- Witness for C10: a failed read (`ret` false, no frame) with an
open capture and a stored frame returns that stored frame with
success, after flagging Frame Error. -/
theorem read_frame_stale_on_failure_witness :
    (read_frame ⟨true, 5, 5, 1, 2, ConnStatus.connected, some ⟨7, 4⟩, 0, 0⟩
        1 2 true (CapRead.ok false none)).2.connection_status
      = ConnStatus.frameError ∧
    (read_frame ⟨true, 5, 5, 1, 2, ConnStatus.connected, some ⟨7, 4⟩, 0, 0⟩
        1 2 true (CapRead.ok false none)).1 = (true, some ⟨7, 4⟩) := by
  have h := read_frame_stale_on_failure
    ⟨true, 5, 5, 1, 2, ConnStatus.connected, some ⟨7, 4⟩, 0, 0⟩ 1 2 true
    false none rfl (by norm_num [decodeErrorCheck]) (by simp)
  exact ⟨h.1, h.2.2.2.2.1 ⟨7, 4⟩ rfl⟩
